import Mathlib

/-!
Verification of the transfer core of the TskFok/ftp desktop client.

The Lean definitions below are a shallow embedding of the Rust source under
src/src-tauri/src: value types from models/transfer.rs, the FTP listing
parser and the chunked transfer loops from services/ftp_client.rs and
services/sftp_client.rs, the resume store from services/resume.rs, the
connection pool from services/connection.rs, and the transfer engine from
services/transfer_engine.rs.

Modelling conventions:
- Machine integers (u64 byte counts, i64 host ids) become Nat / Int; the
  byte counts in play never approach 2^64, and no source arithmetic relies
  on wrap-around (the only subtraction, `transferred - offset`, satisfies
  `transferred >= offset` by construction).
- The SQLite store becomes explicit lists.  `created_at` timestamps are
  produced by a single strictly monotone clock (each save happens at a
  later wall-clock instant), so "ORDER BY created_at DESC LIMIT 1" is
  modelled by keeping the record list newest-first and taking the first
  match.
- Concurrency: one worker execution is modelled as a sequential state
  transformer.  Interactions with the outside world that are decided by
  other threads or by I/O (protocol call outcome, chunk callbacks, the
  value of the shared cancellation flag at each observation point, the
  3-second checkpoint timer) are supplied by an `Env` oracle.
- Floating point: the f64 speed / eta / percentage fields of
  TransferProgress are elided from the model; no claim mentions their
  values, only which events are emitted and their byte counts.
-/

namespace FtpCore

/-! ### models/transfer.rs -/

inductive TransferDirection where
  | upload
  | download
deriving DecidableEq, Repr

def TransferDirection.as_str : TransferDirection → String
  | .upload => "upload"
  | .download => "download"

inductive TransferStatus where
  | pending
  | transferring
  | success
  | failed
  | cancelled
deriving DecidableEq, Repr

structure TransferTask where
  id : String
  host_id : Int
  filename : String
  local_path : String
  remote_path : String
  direction : String
  file_size : Nat
deriving DecidableEq, Repr

structure ResumeRecord where
  transfer_id : String
  host_id : Int
  remote_path : String
  local_path : String
  direction : TransferDirection
  file_size : Nat
  transferred_bytes : Nat
deriving DecidableEq, Repr

/-- `ResumeRecord::new` (models/transfer.rs): fresh record with
`transferred_bytes = 0`, no checksum. -/
def ResumeRecord.new (transfer_id : String) (host_id : Int)
    (remote_path local_path : String) (direction : TransferDirection)
    (file_size : Nat) : ResumeRecord :=
  { transfer_id := transfer_id
    host_id := host_id
    remote_path := remote_path
    local_path := local_path
    direction := direction
    file_size := file_size
    transferred_bytes := 0 }

/-! ### services/ftp_client.rs: the listing parser -/

structure FileEntry where
  name : String
  path : String
  is_dir : Bool
  size : Nat
  modified : Option String
deriving DecidableEq, Repr

/-- Accumulator pass of `split_whitespace` over the character list. -/
def split_whitespace_aux : List Char → List Char → List String
  | [], acc => if acc.isEmpty then [] else [String.mk acc.reverse]
  | c :: cs, acc =>
    if c.isWhitespace then
      if acc.isEmpty then split_whitespace_aux cs []
      else String.mk acc.reverse :: split_whitespace_aux cs []
    else split_whitespace_aux cs (c :: acc)

/-- Rust `str::split_whitespace`: split on whitespace, dropping empty
pieces.  (Rust splits on Unicode whitespace; classic FTP listing lines are
ASCII, where `Char.isWhitespace` agrees.) -/
def split_whitespace (s : String) : List String :=
  split_whitespace_aux s.toList []

/-- Rust `str::parse::<u64>()`: optional leading `+` sign, then one or more
decimal digits; anything else fails.  (Overflow past 2^64 is elided — the
parsed fields are file sizes.) -/
def rust_parse_u64 (s : String) : Option Nat :=
  let cs := match s.toList with
    | '+' :: rest => rest
    | cs => cs
  if cs.isEmpty then none
  else if cs.all Char.isDigit then
    some (cs.foldl (fun a c => a * 10 + (c.toNat - ('0').toNat)) 0)
  else none

/-- `parse_ftp_list_entry` (ftp_client.rs:214-240).
`line.starts_with('d')` and `parent_path.ends_with('/')` are character
tests, modelled on the character list.  `size` is
`parts[4].parse::<u64>().unwrap_or(0)`. -/
def parse_ftp_list_entry (line : String) (parent_path : String) :
    Option FileEntry :=
  let parts := split_whitespace line
  if parts.length < 9 then
    none
  else
    let name := String.intercalate " " (parts.drop 8)
    if name = "." ∨ name = ".." then
      none
    else
      let is_dir := line.toList.head? == some 'd'
      let size := (rust_parse_u64 (parts.getD 4 "")).getD 0
      let path :=
        if parent_path.toList.getLast? = some '/' then
          parent_path ++ name
        else
          parent_path ++ "/" ++ name
      some { name := name
             path := path
             is_dir := is_dir
             size := size
             modified :=
               some (parts.getD 5 "" ++ " " ++ parts.getD 6 "" ++ " " ++
                     parts.getD 7 "") }

/-! ### ftp_client.rs / sftp_client.rs: chunked transfer loops

A transfer loop is driven by the sizes of the successive successful reads
(`reads : List Nat`); the loop stops at the first read of size 0 (EOF).
Each model returns the list of `(transferred, total)` pairs passed to the
progress callback, and the byte count the call returns. -/

/-- `ProgressReader::read` (ftp_client.rs:32-43) as consumed by
`put_file`'s copy loop: `transferred` starts at the caller-supplied value
(`offset` for upload), each nonzero read adds `n` and fires
`cb(self.transferred, self.total)`; a read of 0 ends the copy. -/
def progress_reader_run (transferred total : Nat) :
    List Nat → List (Nat × Nat) × Nat
  | [] => ([], transferred)
  | n :: rest =>
    if n = 0 then ([], transferred)
    else
      let r := progress_reader_run (transferred + n) total rest
      ((transferred + n, total) :: r.1, r.2)

/-- `FtpClient::upload` (ftp_client.rs:100-131): the reader starts with
`transferred = offset`; the call returns `reader.transferred - offset`. -/
def ftp_upload (offset total_size : Nat) (reads : List Nat) :
    List (Nat × Nat) × Nat :=
  let r := progress_reader_run offset total_size reads
  (r.1, r.2 - offset)

/-- The chunk loop of `SftpClient::upload` (sftp_client.rs:170-185):
`transferred` starts at `offset`, each chunk does `transferred += n;
cb(transferred, total_size)`. -/
def sftp_upload_loop (transferred total_size : Nat) :
    List Nat → List (Nat × Nat) × Nat
  | [] => ([], transferred)
  | n :: rest =>
    if n = 0 then ([], transferred)
    else
      let r := sftp_upload_loop (transferred + n) total_size rest
      ((transferred + n, total_size) :: r.1, r.2)

/-- `SftpClient::upload` (sftp_client.rs:136-188): returns
`transferred - offset`. -/
def sftp_upload (offset total_size : Nat) (reads : List Nat) :
    List (Nat × Nat) × Nat :=
  let r := sftp_upload_loop offset total_size reads
  (r.1, r.2 - offset)

/-- The retr closure of `FtpClient::download` (ftp_client.rs:166-185):
`transferred` starts at 0, each chunk does `transferred += n;
cb(offset + transferred, total_size)`; the closure returns `transferred`. -/
def ftp_download_loop (offset total_size transferred : Nat) :
    List Nat → List (Nat × Nat) × Nat
  | [] => ([], transferred)
  | n :: rest =>
    if n = 0 then ([], transferred)
    else
      let r := ftp_download_loop offset total_size (transferred + n) rest
      ((offset + (transferred + n), total_size) :: r.1, r.2)

/-- `FtpClient::download` (ftp_client.rs:133-187). -/
def ftp_download (offset total_size : Nat) (reads : List Nat) :
    List (Nat × Nat) × Nat :=
  ftp_download_loop offset total_size 0 reads

/-- The chunk loop of `SftpClient::download` (sftp_client.rs:225-237):
same counters as the FTP download loop; the call returns `transferred`. -/
def sftp_download_loop (offset total_size transferred : Nat) :
    List Nat → List (Nat × Nat) × Nat
  | [] => ([], transferred)
  | n :: rest =>
    if n = 0 then ([], transferred)
    else
      let r := sftp_download_loop offset total_size (transferred + n) rest
      ((offset + (transferred + n), total_size) :: r.1, r.2)

/-- `SftpClient::download` (sftp_client.rs:190-240). -/
def sftp_download (offset total_size : Nat) (reads : List Nat) :
    List (Nat × Nat) × Nat :=
  sftp_download_loop offset total_size 0 reads

/-- Cumulative partial sums: `cum_sums [a, b, c] = [a, a+b, a+b+c]`. -/
def cum_sums : List Nat → List Nat
  | [] => []
  | n :: rest => n :: (cum_sums rest).map (fun s => n + s)

/-- The reads a stop-at-EOF loop actually processes. -/
def effective_reads (reads : List Nat) : List Nat :=
  reads.takeWhile (fun n => n != 0)

/-! ### services/resume.rs and the history store

`resume_records` is kept newest-first: every insert happens at a strictly
later `created_at`, so `ORDER BY created_at DESC LIMIT 1` is the first
match in the list.  History updates are logged newest-first. -/

structure HistoryUpdate where
  history_id : Nat
  status : TransferStatus
  transferred : Nat
  error_message : Option String
  finished : Bool
deriving DecidableEq, Repr

structure Db where
  resume_records : List ResumeRecord
  history : List HistoryUpdate
deriving DecidableEq, Repr

/-- The WHERE clause of `find_resume_record` (resume.rs:17). -/
def resume_key_matches (host_id : Int) (remote_path local_path : String)
    (direction : String) (r : ResumeRecord) : Bool :=
  r.host_id == host_id && r.remote_path == remote_path &&
    r.local_path == local_path && r.direction.as_str == direction

/-- `find_resume_record` (resume.rs:4-47): most recently created matching
record. -/
def find_resume_record (db : Db) (host_id : Int)
    (remote_path local_path : String) (direction : String) :
    Option ResumeRecord :=
  db.resume_records.find? (resume_key_matches host_id remote_path local_path direction)

/-- `save_resume_record` (resume.rs:49-67): plain INSERT; the new row has
the latest `created_at`. -/
def save_resume_record (db : Db) (record : ResumeRecord) : Db :=
  { db with resume_records := record :: db.resume_records }

/-- `delete_resume_record` (resume.rs:69-77): delete by `transfer_id`. -/
def delete_resume_record (db : Db) (transfer_id : String) : Db :=
  { db with resume_records :=
      db.resume_records.filter (fun r => r.transfer_id != transfer_id) }

/-- `update_history_status` (db/transfer_repo.rs, as called by the
engine): log the transition. -/
def update_history_status (db : Db) (history_id : Nat)
    (status : TransferStatus) (transferred : Nat)
    (error_message : Option String) (finished : Bool) : Db :=
  { db with history :=
      { history_id := history_id
        status := status
        transferred := transferred
        error_message := error_message
        finished := finished } :: db.history }

/-! ### services/transfer_engine.rs -/

/-- The direction match at transfer_engine.rs:117-120 and 342-345:
`"upload" => Upload, _ => Download`. -/
def parse_direction (s : String) : TransferDirection :=
  if s = "upload" then .upload else .download

structure TransferProgress where
  transfer_id : String
  filename : String
  total_bytes : Nat
  transferred_bytes : Nat
deriving DecidableEq, Repr

inductive Event where
  | progress : TransferProgress → Event
  | complete : String → String → Event
  | cancelled : String → String → Event
  | failed : String → String → String → Event
deriving DecidableEq, Repr

/-- Engine-visible state: the store, the active-task map
(task id ↦ cancellation flag, insertion order newest-first, unique keys),
the emitted events (newest-first), the protocol upload/download
invocations `(direction, offset)` (newest-first), and whether an
`AppHandle` event sink is registered. -/
structure EngineSt where
  db : Db
  active_tasks : List (String × Bool)
  events : List Event
  calls : List (TransferDirection × Nat)
  app_handle : Bool
deriving DecidableEq, Repr

/-- `handle.emit` guarded by `if let Some(ref handle) = app_handle`
(transfer_engine.rs:240-242, 366-400): without a sink the event is
dropped. -/
def emit (st : EngineSt) (e : Event) : EngineSt :=
  if st.app_handle then { st with events := e :: st.events } else st

/-- `cleanup_active` (transfer_engine.rs:360-364). -/
def cleanup_active (st : EngineSt) (task_id : String) : EngineSt :=
  { st with active_tasks := st.active_tasks.filter (fun p => p.1 != task_id) }

/-- `submit_task` (transfer_engine.rs:73-96): registers a fresh (false)
cancellation flag under the task id and returns the id.  (The
`task_handles` bookkeeping map and the spawned thread itself are not
modelled; the worker body is `execute_task` below.) -/
def submit_task (st : EngineSt) (task : TransferTask) : String × EngineSt :=
  (task.id,
   { st with active_tasks :=
       (task.id, false) :: st.active_tasks.filter (fun p => p.1 != task.id) })

/-- `cancel_task` (transfer_engine.rs:98-109): set the flag if the id is
in the active map, else `Err("Transfer {id} not found")`. -/
def cancel_task (st : EngineSt) (transfer_id : String) :
    Except String EngineSt :=
  match st.active_tasks.lookup transfer_id with
  | some _ =>
      let flagged := st.active_tasks.map
        (fun p => if p.1 == transfer_id then (p.1, true) else p)
      .ok { st with active_tasks := flagged }
  | none => .error ("Transfer " ++ transfer_id ++ " not found")

/-- `get_active_task_ids` (transfer_engine.rs:111-114). -/
def get_active_task_ids (st : EngineSt) : List String :=
  st.active_tasks.map (fun p => p.1)

/-- One observed invocation of the progress closure: the cumulative count
the protocol client passes in, the value of the shared cancellation flag
at that moment, and whether ≥ 3 s have elapsed since the last checkpoint
write (the `last_resume_save` timer). -/
structure ChunkObs where
  transferred : Nat
  cancel : Bool
  checkpoint_due : Bool
deriving DecidableEq, Repr

/-- Oracle for the world outside one worker: DB lock and insert outcomes,
connection lookup and per-connection lock outcomes, the chunk callbacks
the protocol call performs, its result, and the cancellation flag value
when it returns. -/
structure Env where
  db_lock_ok : Bool
  insert_history : Except String Nat
  get_conn : Except String Unit
  conn_lock_ok : Bool
  chunks : List ChunkObs
  call_result : Except String Nat
  cancel_at_return : Bool
deriving Repr

/-- One invocation of `progress_fn` (transfer_engine.rs:207-259): early
return when the cancellation flag is set; otherwise compute
`effective_transferred = resume_offset + transferred`, emit a
`transfer-progress` event, and — when the 3-second timer has elapsed —
save a `ResumeRecord::new` overwritten with
`transferred_bytes = effective_transferred`.  (speed / eta / percentage
are f64 and elided.) -/
def progress_fn (task : TransferTask) (direction : TransferDirection)
    (resume_offset : Nat) (st : EngineSt) (c : ChunkObs) : EngineSt :=
  if c.cancel then st
  else
    let effective_transferred := resume_offset + c.transferred
    let st := emit st (.progress
      { transfer_id := task.id
        filename := task.filename
        total_bytes := task.file_size
        transferred_bytes := effective_transferred })
    if c.checkpoint_due then
      let record := ResumeRecord.new task.id task.host_id task.remote_path
        task.local_path direction task.file_size
      let record := { record with transferred_bytes := effective_transferred }
      { st with db := save_resume_record st.db record }
    else st

/-- `finish_task_failed` (transfer_engine.rs:329-358): history → Failed
with transferred 0 and the error message, save a fresh
`ResumeRecord::new` (whose `transferred_bytes` is 0), emit
`transfer-failed`, deregister the task. -/
def finish_task_failed (st : EngineSt) (task : TransferTask)
    (history_id : Nat) (error : String) : EngineSt :=
  let st := { st with db :=
    update_history_status st.db history_id .failed 0 (some error) true }
  let direction := parse_direction task.direction
  let record := ResumeRecord.new task.id task.host_id task.remote_path
    task.local_path direction task.file_size
  let st := { st with db := save_resume_record st.db record }
  let st := emit st (.failed task.id task.filename error)
  cleanup_active st task.id

/-- The `resume_offset` resolution (transfer_engine.rs:162-171): the
transferred-byte count of the matching resume record, 0 when there is
none (or the lookup failed). -/
def resolve_resume_offset (db : Db) (host_id : Int)
    (remote_path local_path direction : String) : Nat :=
  match find_resume_record db host_id remote_path local_path direction with
  | some r => r.transferred_bytes
  | none => 0

/-- `execute_task` (transfer_engine.rs:116-327), sequentialized against
the `Env` oracle.  The protocol call is recorded in `calls` as
`(direction, resume_offset)` and its chunk callbacks are folded through
`progress_fn`. -/
def execute_task (st : EngineSt) (task : TransferTask) (env : Env) :
    EngineSt :=
  let direction := parse_direction task.direction
  if !env.db_lock_ok then
    cleanup_active
      (emit st (.failed task.id task.filename "Database lock failed")) task.id
  else
    match env.insert_history with
    | .error e =>
        cleanup_active (emit st (.failed task.id task.filename e)) task.id
    | .ok history_id =>
      let st := { st with db :=
        update_history_status st.db history_id .transferring 0 none false }
      let resume_offset := resolve_resume_offset st.db task.host_id
        task.remote_path task.local_path direction.as_str
      match env.get_conn with
      | .error e => finish_task_failed st task history_id e
      | .ok _ =>
        if (st.active_tasks.lookup task.id).isNone then
          finish_task_failed st task history_id "Task was removed"
        else if !env.conn_lock_ok then
          finish_task_failed st task history_id "connection lock poisoned"
        else
          let st := { st with calls := (direction, resume_offset) :: st.calls }
          let st := env.chunks.foldl
            (fun s c => progress_fn task direction resume_offset s c) st
          if env.cancel_at_return then
            let st := { st with db :=
              update_history_status st.db history_id .cancelled 0 none true }
            let st := emit st (.cancelled task.id task.filename)
            cleanup_active st task.id
          else
            match env.call_result with
            | .ok bytes =>
              let total_transferred := resume_offset + bytes
              let db := update_history_status st.db history_id .success
                total_transferred none true
              let st := { st with db := db }
              let st := { st with db := delete_resume_record st.db task.id }
              let st := emit st (.complete task.id task.filename)
              cleanup_active st task.id
            | .error e => finish_task_failed st task history_id e

/-! ### services/connection.rs -/

inductive Protocol where
  | ftp
  | sftp
deriving DecidableEq, Repr

structure Host where
  id : Option Int
  protocol : Protocol
deriving DecidableEq, Repr

/-- A pooled protocol client, observed by how many times its
`connect()` (session establishment + authentication) has run. -/
structure Client where
  connect_count : Nat
  connected : Bool
deriving DecidableEq, Repr

/-- The pool map `host id ↦ client` (unique keys). -/
def Pool := List (Int × Client)

/-- `ConnectionManager::connect` (connection.rs:88-104).  Returns the
call's result, the pool afterwards, and whether a new client was
constructed and connected (`create_client` + `client.connect()` both
happen only on the miss path).  `connect_result` is the transport /
authentication outcome for that fresh client. -/
def ConnectionManager.connect (pool : Pool) (host : Host)
    (connect_result : Except String Unit) :
    Except String Unit × Pool × Bool :=
  match host.id with
  | none => (.error "Host has no ID", pool, false)
  | some host_id =>
    if (List.lookup host_id pool).isSome then
      (.ok (), pool, false)
    else
      match connect_result with
      | .error e => (.error e, pool, true)
      | .ok _ =>
          (.ok (), (host_id, { connect_count := 1, connected := true }) :: pool,
           true)

/-- `ConnectionManager::disconnect` (connection.rs:106-116): remove the
entry if present, then disconnect it (`disc_result`); an absent host id is
success. -/
def ConnectionManager.disconnect (pool : Pool) (host_id : Int)
    (disc_result : Except String Unit) : Except String Unit × Pool :=
  match List.lookup host_id pool with
  | none => (.ok (), pool)
  | some _ => (disc_result, List.filter (fun p => p.1 != host_id) pool)

/-! ## Theorems -/

/-- C7: The FTP listing parser maps the classic sample line under parent
`/home` to `{name := "test.txt", path := "/home/test.txt", is_dir :=
false, size := 1024}`; it suppresses entries whose name (the 9th-onward
tokens joined by single spaces) is `.` or `..`; it yields nothing for
lines with fewer than 9 whitespace-delimited tokens; and every produced
entry's name is exactly the remainder of the line from the 9th token
joined by spaces, so names containing spaces survive. -/
theorem ftp_listing_parser_behaviour :
    (parse_ftp_list_entry
        "-rw-r--r--   1 user group   1024 Jan 01 12:00 test.txt" "/home" =
      some { name := "test.txt", path := "/home/test.txt", is_dir := false,
             size := 1024, modified := some "Jan 01 12:00" }) ∧
    (∀ line parent : String,
      (String.intercalate " " ((split_whitespace line).drop 8) = "." ∨
       String.intercalate " " ((split_whitespace line).drop 8) = "..") →
      parse_ftp_list_entry line parent = none) ∧
    (∀ line parent : String, (split_whitespace line).length < 9 →
      parse_ftp_list_entry line parent = none) ∧
    (∀ line parent : String, ∀ e : FileEntry,
      parse_ftp_list_entry line parent = some e →
      e.name = String.intercalate " " ((split_whitespace line).drop 8)) := by
  refine ⟨by decide, ?_, ?_, ?_⟩
  · intro line parent h
    by_cases hl : (split_whitespace line).length < 9
    · simp [parse_ftp_list_entry, hl]
    · simp [parse_ftp_list_entry, hl, h]
  · intro line parent h
    simp [parse_ftp_list_entry, h]
  · intro line parent e h
    simp only [parse_ftp_list_entry] at h
    split at h
    · exact absurd h (by simp)
    · split at h
      · exact absurd h (by simp)
      · simp only [Option.some.injEq] at h
        subst h
        rfl

/-- C7 witness: the parser's hypotheses discharged on the dot entry, an
under-9-token line, and a name with spaces. -/
theorem ftp_listing_parser_behaviour_witness :
    (parse_ftp_list_entry "drwxr-xr-x 2 user group 4096 Jan 01 12:00 ." "/"
      = none) ∧
    (parse_ftp_list_entry "short line" "/" = none) ∧
    ((parse_ftp_list_entry
        "-rw-r--r--   1 user group   2048 Feb 15 09:30 my file name.txt"
        "/data").map FileEntry.name = some "my file name.txt") := by
  refine ⟨?_, ?_, ?_⟩
  · exact ftp_listing_parser_behaviour.2.1
      "drwxr-xr-x 2 user group 4096 Jan 01 12:00 ." "/" (by decide)
  · exact ftp_listing_parser_behaviour.2.2.1 "short line" "/" (by decide)
  · have hp : parse_ftp_list_entry
        "-rw-r--r--   1 user group   2048 Feb 15 09:30 my file name.txt"
        "/data" = some ⟨"my file name.txt", "/data/my file name.txt",
          false, 2048, some "Feb 15 09:30"⟩ := by decide
    have h := ftp_listing_parser_behaviour.2.2.2
      "-rw-r--r--   1 user group   2048 Feb 15 09:30 my file name.txt"
      "/data" _ hp
    rw [hp, Option.map_some', h]
    decide

theorem cum_sums_cons (n : Nat) (rest : List Nat) :
    cum_sums (n :: rest) = n :: (cum_sums rest).map (fun s => n + s) := rfl

theorem progress_reader_run_spec (total : Nat) (reads : List Nat) :
    ∀ t, progress_reader_run t total reads =
      ((cum_sums (effective_reads reads)).map (fun s => (t + s, total)),
       t + (effective_reads reads).sum) := by
  induction reads with
  | nil => intro t; simp [progress_reader_run, effective_reads, cum_sums]
  | cons n rest ih =>
    intro t
    by_cases h : n = 0
    · simp [progress_reader_run, effective_reads, cum_sums, h,
        List.takeWhile]
    · simp only [progress_reader_run, effective_reads, List.takeWhile,
        cum_sums, if_neg h]
      have hb : (n != 0) = true := by simp [h]
      simp [hb, h, effective_reads, ih (t + n), cum_sums_cons,
        List.map_map, Function.comp, Nat.add_assoc]

theorem sftp_upload_loop_spec (total : Nat) (reads : List Nat) :
    ∀ t, sftp_upload_loop t total reads =
      ((cum_sums (effective_reads reads)).map (fun s => (t + s, total)),
       t + (effective_reads reads).sum) := by
  induction reads with
  | nil => intro t; simp [sftp_upload_loop, effective_reads, cum_sums]
  | cons n rest ih =>
    intro t
    by_cases h : n = 0
    · simp [sftp_upload_loop, effective_reads, cum_sums, h, List.takeWhile]
    · simp only [sftp_upload_loop, effective_reads, List.takeWhile,
        cum_sums, if_neg h]
      have hb : (n != 0) = true := by simp [h]
      simp [hb, h, effective_reads, ih (t + n), cum_sums_cons,
        List.map_map, Function.comp, Nat.add_assoc]

theorem ftp_download_loop_spec (offset total : Nat) (reads : List Nat) :
    ∀ tr, ftp_download_loop offset total tr reads =
      ((cum_sums (effective_reads reads)).map
        (fun s => (offset + (tr + s), total)),
       tr + (effective_reads reads).sum) := by
  induction reads with
  | nil => intro tr; simp [ftp_download_loop, effective_reads, cum_sums]
  | cons n rest ih =>
    intro tr
    by_cases h : n = 0
    · simp [ftp_download_loop, effective_reads, cum_sums, h,
        List.takeWhile]
    · simp only [ftp_download_loop, effective_reads, List.takeWhile,
        cum_sums, if_neg h]
      have hb : (n != 0) = true := by simp [h]
      simp [hb, h, effective_reads, ih (tr + n), cum_sums_cons,
        List.map_map, Function.comp, Nat.add_assoc]

theorem sftp_download_loop_spec (offset total : Nat) (reads : List Nat) :
    ∀ tr, sftp_download_loop offset total tr reads =
      ((cum_sums (effective_reads reads)).map
        (fun s => (offset + (tr + s), total)),
       tr + (effective_reads reads).sum) := by
  induction reads with
  | nil => intro tr; simp [sftp_download_loop, effective_reads, cum_sums]
  | cons n rest ih =>
    intro tr
    by_cases h : n = 0
    · simp [sftp_download_loop, effective_reads, cum_sums, h,
        List.takeWhile]
    · simp only [sftp_download_loop, effective_reads, List.takeWhile,
        cum_sums, if_neg h]
      have hb : (n != 0) = true := by simp [h]
      simp [hb, h, effective_reads, ih (tr + n), cum_sums_cons,
        List.map_map, Function.comp, Nat.add_assoc]

/-- C3 counterexample: an FTP or SFTP upload resumed at offset 100 whose
single chunk moves 5 bytes invokes the progress callback with 105, the
offset-inclusive count — not the call-relative count 5 the claim
asserts. -/
theorem upload_progress_call_relative_counterexample :
    (ftp_upload 100 200 [5]).1 = [(105, 200)] ∧
    (sftp_upload 100 200 [5]).1 = [(105, 200)] ∧
    ((105 : Nat) ≠ 5) := by decide

/-- C3 (amended): every progress callback of all four client transfer
paths — FTP upload, SFTP upload, FTP download, SFTP download — receives
the offset-inclusive count `offset + (cumulative bytes moved in this
call)`; the upload paths are not call-relative. -/
theorem progress_callbacks_offset_inclusive :
    ∀ (offset total_size : Nat) (reads : List Nat),
    (ftp_upload offset total_size reads).1 =
      (cum_sums (effective_reads reads)).map
        (fun s => (offset + s, total_size)) ∧
    (sftp_upload offset total_size reads).1 =
      (cum_sums (effective_reads reads)).map
        (fun s => (offset + s, total_size)) ∧
    (ftp_download offset total_size reads).1 =
      (cum_sums (effective_reads reads)).map
        (fun s => (offset + s, total_size)) ∧
    (sftp_download offset total_size reads).1 =
      (cum_sums (effective_reads reads)).map
        (fun s => (offset + s, total_size)) := by
  intro offset total_size reads
  refine ⟨?_, ?_, ?_, ?_⟩
  · simp [ftp_upload, progress_reader_run_spec]
  · simp [sftp_upload, sftp_upload_loop_spec]
  · simp [ftp_download, ftp_download_loop_spec]
  · simp [sftp_download, sftp_download_loop_spec]

/-- C8: every successful upload/download call on both clients returns the
bytes moved during this call only (the sum of the chunk reads it
performed), excluding the pre-existing offset; in particular, moving the
remainder `T - k` of a file from offset `k` returns `T - k`, not `T`. -/
theorem transfer_calls_return_bytes_this_call :
    ∀ (offset total_size : Nat) (reads : List Nat),
    (ftp_upload offset total_size reads).2 = (effective_reads reads).sum ∧
    (sftp_upload offset total_size reads).2 = (effective_reads reads).sum ∧
    (ftp_download offset total_size reads).2 = (effective_reads reads).sum ∧
    (sftp_download offset total_size reads).2 =
      (effective_reads reads).sum := by
  intro offset total_size reads
  refine ⟨?_, ?_, ?_, ?_⟩
  · simp [ftp_upload, progress_reader_run_spec]
  · simp [sftp_upload, sftp_upload_loop_spec]
  · simp [ftp_download, ftp_download_loop_spec]
  · simp [sftp_download, sftp_download_loop_spec]

theorem lookup_filter_ne_none (id : String) (l : List (String × Bool)) :
    List.lookup id (l.filter (fun p => p.1 != id)) = none := by
  induction l with
  | nil => rfl
  | cons p rest ih =>
    obtain ⟨k, v⟩ := p
    by_cases h : k = id
    · have hb : ((k, v).1 != id) = false := by simp [h]
      simp [List.filter_cons, hb, ih]
    · have hb : ((k, v).1 != id) = true := by simp [h]
      have hk : (id == k) = false := by
        rw [beq_eq_false_iff_ne]
        exact fun hc => h hc.symm
      simp [List.filter_cons, hb, List.lookup, hk, ih]

theorem lookup_set_flag (id : String) (l : List (String × Bool)) (f : Bool)
    (hf : List.lookup id l = some f) :
    List.lookup id
      (l.map (fun p => if p.1 == id then (p.1, true) else p)) =
      some true := by
  induction l with
  | nil => simp at hf
  | cons p rest ih =>
    obtain ⟨k, v⟩ := p
    by_cases h : id = k
    · subst h
      simp only [List.map_cons]
      rw [if_pos (by simp)]
      simp [List.lookup]
    · have hk : (k == id) = false := by
        rw [beq_eq_false_iff_ne]
        exact fun hc => h hc.symm
      have hk2 : (id == k) = false := by
        rw [beq_eq_false_iff_ne]
        exact h
      simp only [List.lookup, hk2] at hf
      simp only [List.map_cons]
      rw [if_neg (by simp [hk])]
      simp only [List.lookup, hk2]
      exact ih hf

/-- C6: `cancel_task` sets the cancellation flag and returns success
precisely when the task id is in the active map; for any id absent from
the map — in particular one already removed by `cleanup_active` after a
terminal outcome — it returns the "Transfer ... not found" error, never
success. -/
theorem cancel_task_found_iff_active :
    ∀ (st : EngineSt) (id : String),
    (∀ f, st.active_tasks.lookup id = some f →
      ∃ st', cancel_task st id = .ok st' ∧
        st'.active_tasks.lookup id = some true) ∧
    (st.active_tasks.lookup id = none →
      cancel_task st id = .error ("Transfer " ++ id ++ " not found")) ∧
    (cancel_task (cleanup_active st id) id =
      .error ("Transfer " ++ id ++ " not found")) := by
  intro st id
  refine ⟨?_, ?_, ?_⟩
  · intro f hf
    refine ⟨{ st with active_tasks := st.active_tasks.map (fun p => if p.1 == id then (p.1, true) else p) }, ?_, ?_⟩
    · simp [cancel_task, hf]
    · exact lookup_set_flag id st.active_tasks f hf
  · intro hn
    simp [cancel_task, hn]
  · have hn : (cleanup_active st id).active_tasks.lookup id = none := by
      simp only [cleanup_active]
      exact lookup_filter_ne_none id st.active_tasks
    simp [cancel_task, hn]

/-- C6 witness: on a concrete engine state holding one active task,
cancelling it succeeds and sets the flag; cancelling an unknown id and
cancelling the task again after cleanup both return the not-found
error. -/
theorem cancel_task_found_iff_active_witness :
    (∃ st', cancel_task
        { db := { resume_records := [], history := [] },
          active_tasks := [("a", false)], events := [], calls := [],
          app_handle := false } "a" = .ok st' ∧
        st'.active_tasks.lookup "a" = some true) ∧
    (cancel_task
        { db := { resume_records := [], history := [] },
          active_tasks := [("a", false)], events := [], calls := [],
          app_handle := false } "b" =
      .error ("Transfer " ++ "b" ++ " not found")) ∧
    (cancel_task (cleanup_active
        { db := { resume_records := [], history := [] },
          active_tasks := [("a", false)], events := [], calls := [],
          app_handle := false } "a") "a" =
      .error ("Transfer " ++ "a" ++ " not found")) := by
  refine ⟨?_, ?_, ?_⟩
  · exact (cancel_task_found_iff_active
      { db := { resume_records := [], history := [] },
        active_tasks := [("a", false)], events := [], calls := [],
        app_handle := false } "a").1 false (by decide)
  · exact (cancel_task_found_iff_active
      { db := { resume_records := [], history := [] },
        active_tasks := [("a", false)], events := [], calls := [],
        app_handle := false } "b").2.1 (by decide)
  · exact (cancel_task_found_iff_active
      { db := { resume_records := [], history := [] },
        active_tasks := [("a", false)], events := [], calls := [],
        app_handle := false } "a").2.2

/-- C9: the connection pool is idempotent — `disconnect` on a host id
with no pooled entry succeeds and leaves the pool unchanged, and a second
`connect` for a host id that already has a pooled entry succeeds without
constructing a new client, opening a session or re-authenticating (the
returned flag is false) and leaves the pool unchanged. -/
theorem connection_pool_idempotence :
    ∀ (pool : Pool) (host : Host) (host_id : Int) (c : Client)
      (cr dr : Except String Unit),
    (List.lookup host_id pool = none →
      ConnectionManager.disconnect pool host_id dr = (.ok (), pool)) ∧
    (host.id = some host_id → List.lookup host_id pool = some c →
      ConnectionManager.connect pool host cr = (.ok (), pool, false)) := by
  intro pool host host_id c cr dr
  refine ⟨?_, ?_⟩
  · intro hn
    simp [ConnectionManager.disconnect, hn]
  · intro hid hc
    simp [ConnectionManager.connect, hid, hc]

/-- C9 witness: a pool holding host 1 — disconnecting absent host 2
succeeds unchanged, and reconnecting host 1 succeeds with no new
session. -/
theorem connection_pool_idempotence_witness :
    (ConnectionManager.disconnect
        [((1 : Int), { connect_count := 1, connected := true })] 2
        (.ok ()) =
      (.ok (), [((1 : Int), { connect_count := 1, connected := true })])) ∧
    (ConnectionManager.connect
        [((1 : Int), { connect_count := 1, connected := true })]
        { id := some 1, protocol := .ftp } (.ok ()) =
      (.ok (), [((1 : Int), { connect_count := 1, connected := true })],
       false)) := by
  refine ⟨?_, ?_⟩
  · exact (connection_pool_idempotence
      [((1 : Int), { connect_count := 1, connected := true })]
      { id := some 1, protocol := .ftp } 2
      { connect_count := 1, connected := true } (.ok ()) (.ok ())).1
      (by decide)
  · exact (connection_pool_idempotence
      [((1 : Int), { connect_count := 1, connected := true })]
      { id := some 1, protocol := .ftp } 1
      { connect_count := 1, connected := true } (.ok ()) (.ok ())).2
      rfl (by decide)

/-- Concrete engine state for progress-closure scenarios: one active
task, an event sink registered, empty store. -/
def st_c2 : EngineSt :=
  { db := { resume_records := [], history := [] }
    active_tasks := [("t", false)]
    events := []
    calls := []
    app_handle := true }

def task_c2 : TransferTask :=
  { id := "t"
    host_id := 1
    filename := "f.txt"
    local_path := "/l/f.txt"
    remote_path := "/r/f.txt"
    direction := "upload"
    file_size := 100 }

/-- C2 counterexample: a progress-closure invocation with the
cancellation flag already set returns the state unchanged — no progress
event is emitted and no checkpoint is written even though the sink is
registered and the checkpoint timer is due, refuting the claim that the
closure executes its full body without checking the flag. -/
theorem progress_closure_ignores_cancel_counterexample :
    (progress_fn task_c2 .upload 0 st_c2
      { transferred := 32768, cancel := true, checkpoint_due := true } =
      st_c2) ∧
    ((progress_fn task_c2 .upload 0 st_c2
      { transferred := 32768, cancel := true, checkpoint_due := true
      }).events = []) ∧
    ((progress_fn task_c2 .upload 0 st_c2
      { transferred := 32768, cancel := true, checkpoint_due := true
      }).db.resume_records = []) := by
  refine ⟨rfl, rfl, rfl⟩

/-- C2 (amended): the progress closure checks the cancellation flag at
entry (transfer_engine.rs:208-210).  When the flag is set it returns
immediately, leaving the state untouched; only when it is clear does it
execute the body: emit a progress event carrying
`resume_offset + transferred` (when a sink is registered) and write a
checkpoint exactly when the 3-second timer is due. -/
theorem progress_closure_checks_cancel_flag :
    ∀ (task : TransferTask) (direction : TransferDirection)
      (resume_offset : Nat) (st : EngineSt) (c : ChunkObs),
    (c.cancel = true →
      progress_fn task direction resume_offset st c = st) ∧
    (c.cancel = false → st.app_handle = true →
      ∃ rest, (progress_fn task direction resume_offset st c).events =
        Event.progress ⟨task.id, task.filename, task.file_size,
          resume_offset + c.transferred⟩ :: rest) ∧
    (c.cancel = false → c.checkpoint_due = true →
      (progress_fn task direction resume_offset st c).db.resume_records =
        { ResumeRecord.new task.id task.host_id task.remote_path task.local_path direction task.file_size with transferred_bytes := resume_offset + c.transferred } :: st.db.resume_records) ∧
    (c.cancel = false → c.checkpoint_due = false →
      (progress_fn task direction resume_offset st c).db = st.db) := by
  intro task direction resume_offset st c
  refine ⟨?_, ?_, ?_, ?_⟩
  · intro hc
    simp [progress_fn, hc]
  · intro hc ha
    refine ⟨st.events, ?_⟩
    by_cases hcp : c.checkpoint_due = true
    · simp [progress_fn, hc, hcp, emit, ha, save_resume_record]
    · simp only [Bool.not_eq_true] at hcp
      simp [progress_fn, hc, hcp, emit, ha, save_resume_record]
  · intro hc hcp
    simp only [progress_fn, hc, hcp, Bool.false_eq_true, if_false, if_true,
      save_resume_record, emit]
    split <;> rfl
  · intro hc hcp
    simp only [progress_fn, hc, hcp, Bool.false_eq_true, if_false,
      save_resume_record, emit]
    split <;> rfl

/-- C2 witness: the amended closure behaviour at concrete inputs — flag
set leaves the state unchanged; flag clear with offset 7 and chunk count
5 emits a progress event carrying 12 and checkpoints 12 when due, and
leaves the store untouched when not due. -/
theorem progress_closure_checks_cancel_flag_witness :
    (progress_fn task_c2 .upload 0 st_c2
      { transferred := 32768, cancel := true, checkpoint_due := true } =
      st_c2) ∧
    (∃ rest, (progress_fn task_c2 .upload 7 st_c2
      { transferred := 5, cancel := false, checkpoint_due := true
      }).events =
      Event.progress ⟨task_c2.id, task_c2.filename, task_c2.file_size,
        7 + 5⟩ :: rest) ∧
    ((progress_fn task_c2 .upload 7 st_c2
      { transferred := 5, cancel := false, checkpoint_due := true
      }).db.resume_records =
      { ResumeRecord.new task_c2.id task_c2.host_id task_c2.remote_path task_c2.local_path .upload task_c2.file_size with transferred_bytes := 7 + 5 } :: st_c2.db.resume_records) ∧
    ((progress_fn task_c2 .upload 7 st_c2
      { transferred := 5, cancel := false, checkpoint_due := false
      }).db = st_c2.db) := by
  have h0 := progress_closure_checks_cancel_flag task_c2 .upload 0 st_c2
    { transferred := 32768, cancel := true, checkpoint_due := true }
  have h1 := progress_closure_checks_cancel_flag task_c2 .upload 7 st_c2
    { transferred := 5, cancel := false, checkpoint_due := true }
  have h2 := progress_closure_checks_cancel_flag task_c2 .upload 7 st_c2
    { transferred := 5, cancel := false, checkpoint_due := false }
  exact ⟨h0.1 rfl, h1.2.1 rfl rfl, h1.2.2.1 rfl rfl, h2.2.2.2 rfl rfl⟩


/-! ### Engine bookkeeping lemmas -/

theorem emit_active (st : EngineSt) (e : Event) :
    (emit st e).active_tasks = st.active_tasks := by
  unfold emit
  split <;> rfl

theorem emit_calls (st : EngineSt) (e : Event) :
    (emit st e).calls = st.calls := by
  unfold emit
  split <;> rfl

theorem emit_db (st : EngineSt) (e : Event) : (emit st e).db = st.db := by
  unfold emit
  split <;> rfl

theorem emit_app_handle (st : EngineSt) (e : Event) :
    (emit st e).app_handle = st.app_handle := by
  unfold emit
  split <;> rfl

theorem cleanup_active_events (st : EngineSt) (id : String) :
    (cleanup_active st id).events = st.events := rfl

theorem cleanup_active_db (st : EngineSt) (id : String) :
    (cleanup_active st id).db = st.db := rfl

theorem cleanup_active_calls (st : EngineSt) (id : String) :
    (cleanup_active st id).calls = st.calls := rfl

theorem cleanup_active_spec (st : EngineSt) (id : String) :
    (cleanup_active st id).active_tasks =
      st.active_tasks.filter (fun p => p.1 != id) := rfl

/-- Terminal lifecycle events for a given transfer id: `transfer-complete`,
`transfer-cancelled` and `transfer-failed`; progress events are not
terminal. -/
def is_terminal_event_for (id : String) : Event → Bool
  | .progress _ => false
  | .complete tid _ => tid == id
  | .cancelled tid _ => tid == id
  | .failed tid _ _ => tid == id

def terminal_count (id : String) (events : List Event) : Nat :=
  (events.filter (is_terminal_event_for id)).length

theorem terminal_count_emit_true (st : EngineSt) (e : Event) (id : String)
    (he : is_terminal_event_for id e = true) :
    terminal_count id (emit st e).events =
      terminal_count id st.events + (if st.app_handle = true then 1 else 0) := by
  by_cases h : st.app_handle = true
  · simp [emit, h, terminal_count, List.filter_cons, he]
  · simp [emit, h, terminal_count]

theorem terminal_count_emit_progress (st : EngineSt) (p : TransferProgress)
    (id : String) :
    terminal_count id (emit st (.progress p)).events =
      terminal_count id st.events := by
  unfold emit
  split
  · simp [terminal_count, List.filter_cons, is_terminal_event_for]
  · rfl

theorem progress_fn_active (task : TransferTask)
    (direction : TransferDirection) (off : Nat) (st : EngineSt)
    (c : ChunkObs) :
    (progress_fn task direction off st c).active_tasks = st.active_tasks := by
  unfold progress_fn
  split_ifs <;> simp [emit_active]

theorem progress_fn_calls (task : TransferTask)
    (direction : TransferDirection) (off : Nat) (st : EngineSt)
    (c : ChunkObs) :
    (progress_fn task direction off st c).calls = st.calls := by
  unfold progress_fn
  split_ifs <;> simp [emit_calls]

theorem progress_fn_app_handle (task : TransferTask)
    (direction : TransferDirection) (off : Nat) (st : EngineSt)
    (c : ChunkObs) :
    (progress_fn task direction off st c).app_handle = st.app_handle := by
  unfold progress_fn
  split_ifs <;> simp [emit_app_handle]

theorem progress_fn_history (task : TransferTask)
    (direction : TransferDirection) (off : Nat) (st : EngineSt)
    (c : ChunkObs) :
    (progress_fn task direction off st c).db.history = st.db.history := by
  unfold progress_fn
  split_ifs <;> simp [save_resume_record, emit_db]

theorem progress_fn_terminal_count (task : TransferTask)
    (direction : TransferDirection) (off : Nat) (st : EngineSt)
    (c : ChunkObs) (id : String) :
    terminal_count id (progress_fn task direction off st c).events =
      terminal_count id st.events := by
  unfold progress_fn
  split_ifs with h1 h2
  · rfl
  · have := terminal_count_emit_progress st ⟨task.id, task.filename, task.file_size, off + c.transferred⟩ id
    simp [save_resume_record]
    exact this
  · exact terminal_count_emit_progress st _ id

/-- The chunk-callback fold performed by the protocol call changes only
`db.resume_records` and the progress events. -/
theorem foldl_progress_facts (task : TransferTask)
    (direction : TransferDirection) (off : Nat) (chunks : List ChunkObs) :
    ∀ st : EngineSt,
    (chunks.foldl (fun s c => progress_fn task direction off s c) st).active_tasks = st.active_tasks ∧
    (chunks.foldl (fun s c => progress_fn task direction off s c) st).calls = st.calls ∧
    (chunks.foldl (fun s c => progress_fn task direction off s c) st).app_handle = st.app_handle ∧
    (chunks.foldl (fun s c => progress_fn task direction off s c) st).db.history = st.db.history ∧
    (∀ id, terminal_count id (chunks.foldl (fun s c => progress_fn task direction off s c) st).events = terminal_count id st.events) := by
  induction chunks with
  | nil => intro st; exact ⟨rfl, rfl, rfl, rfl, fun _ => rfl⟩
  | cons c rest ih =>
    intro st
    have h := ih (progress_fn task direction off st c)
    refine ⟨?_, ?_, ?_, ?_, ?_⟩
    · rw [List.foldl_cons, h.1, progress_fn_active]
    · rw [List.foldl_cons, h.2.1, progress_fn_calls]
    · rw [List.foldl_cons, h.2.2.1, progress_fn_app_handle]
    · rw [List.foldl_cons, h.2.2.2.1, progress_fn_history]
    · intro id
      rw [List.foldl_cons, h.2.2.2.2 id, progress_fn_terminal_count]

theorem finish_task_failed_active (st : EngineSt) (task : TransferTask)
    (hid : Nat) (err : String) :
    (finish_task_failed st task hid err).active_tasks =
      st.active_tasks.filter (fun p => p.1 != task.id) := by
  unfold finish_task_failed
  rw [cleanup_active_spec, emit_active]

theorem finish_task_failed_calls (st : EngineSt) (task : TransferTask)
    (hid : Nat) (err : String) :
    (finish_task_failed st task hid err).calls = st.calls := by
  unfold finish_task_failed
  rw [cleanup_active_calls, emit_calls]

theorem finish_task_failed_records (st : EngineSt) (task : TransferTask)
    (hid : Nat) (err : String) :
    (finish_task_failed st task hid err).db.resume_records =
      ResumeRecord.new task.id task.host_id task.remote_path task.local_path (parse_direction task.direction) task.file_size :: st.db.resume_records := by
  unfold finish_task_failed
  rw [cleanup_active_db, emit_db]
  simp [save_resume_record, update_history_status]

theorem finish_task_failed_tcount (st : EngineSt) (task : TransferTask)
    (hid : Nat) (err : String) :
    terminal_count task.id (finish_task_failed st task hid err).events =
      terminal_count task.id st.events +
        (if st.app_handle = true then 1 else 0) := by
  unfold finish_task_failed
  rw [cleanup_active_events]
  have he : is_terminal_event_for task.id
      (Event.failed task.id task.filename err) = true := by
    simp [is_terminal_event_for]
  rw [terminal_count_emit_true _ _ _ he]

theorem finish_task_failed_factor (st : EngineSt) (task : TransferTask)
    (hid : Nat) (err : String) :
    ∃ st', finish_task_failed st task hid err = cleanup_active st' task.id ∧
      st'.active_tasks = st.active_tasks := by
  unfold finish_task_failed
  exact ⟨_, rfl, emit_active _ _⟩


theorem finish_task_failed_run_facts (st : EngineSt) (task : TransferTask)
    (hid : Nat) (err : String) :
    ∃ st', finish_task_failed st task hid err = cleanup_active st' task.id ∧
      st'.active_tasks = st.active_tasks ∧
      terminal_count task.id st'.events =
        terminal_count task.id st.events +
          (if st.app_handle = true then 1 else 0) := by
  obtain ⟨st', he, ha⟩ := finish_task_failed_factor st task hid err
  refine ⟨st', he, ha, ?_⟩
  have h1 := finish_task_failed_tcount st task hid err
  rw [he, cleanup_active_events] at h1
  exact h1

/-- Every path of `execute_task` leaves the active map untouched until a
single final `cleanup_active`, and emits exactly one terminal event for
the task (when an event sink is registered). -/
theorem execute_task_run_facts (st : EngineSt) (task : TransferTask)
    (env : Env) :
    ∃ st', execute_task st task env = cleanup_active st' task.id ∧
      st'.active_tasks = st.active_tasks ∧
      terminal_count task.id st'.events =
        terminal_count task.id st.events +
          (if st.app_handle = true then 1 else 0) := by
  have hterm_f : is_terminal_event_for task.id
      (Event.failed task.id task.filename "Database lock failed") = true := by
    simp [is_terminal_event_for]
  unfold execute_task
  cases hdb : env.db_lock_ok with
  | false =>
    simp only [hdb, Bool.not_false, if_true]
    refine ⟨_, rfl, emit_active _ _, ?_⟩
    rw [terminal_count_emit_true _ _ _ hterm_f]
  | true =>
    simp only [hdb, Bool.not_true, Bool.false_eq_true, if_false]
    cases hins : env.insert_history with
    | error e =>
      refine ⟨_, rfl, emit_active _ _, ?_⟩
      rw [terminal_count_emit_true]
      simp [is_terminal_event_for]
    | ok hid =>
      dsimp only
      cases hconn : env.get_conn with
      | error e =>
        exact finish_task_failed_run_facts _ task hid e
      | ok u =>
        dsimp only
        by_cases hlk : (List.lookup task.id st.active_tasks).isNone = true
        · rw [if_pos hlk]
          exact finish_task_failed_run_facts _ task hid _
        · rw [if_neg hlk]
          cases hcl : env.conn_lock_ok with
          | false =>
            simp only [hcl, Bool.not_false, if_true]
            exact finish_task_failed_run_facts _ task hid _
          | true =>
            simp only [hcl, Bool.not_true, Bool.false_eq_true, if_false]
            have hf2 := foldl_progress_facts task (parse_direction task.direction) (resolve_resume_offset (update_history_status st.db hid TransferStatus.transferring 0 none false) task.host_id task.remote_path task.local_path (parse_direction task.direction).as_str) env.chunks { st with db := update_history_status st.db hid TransferStatus.transferring 0 none false, calls := (parse_direction task.direction, resolve_resume_offset (update_history_status st.db hid TransferStatus.transferring 0 none false) task.host_id task.remote_path task.local_path (parse_direction task.direction).as_str) :: st.calls }
            cases hcar : env.cancel_at_return with
            | true =>
              simp only [if_true]
              refine ⟨_, rfl, ?_, ?_⟩
              · rw [emit_active]
                exact hf2.1
              · rw [terminal_count_emit_true]
                · rw [hf2.2.2.2.2 task.id, hf2.2.2.1]
                · simp [is_terminal_event_for]
            | false =>
              simp only [Bool.false_eq_true, if_false]
              cases hres : env.call_result with
              | ok bytes =>
                dsimp only
                refine ⟨_, rfl, ?_, ?_⟩
                · rw [emit_active]
                  exact hf2.1
                · rw [terminal_count_emit_true]
                  · rw [hf2.2.2.2.2 task.id, hf2.2.2.1]
                  · simp [is_terminal_event_for]
              | error e =>
                obtain ⟨st', he, ha, hc⟩ := finish_task_failed_run_facts (List.foldl (fun s c => progress_fn task (parse_direction task.direction) (resolve_resume_offset (update_history_status st.db hid TransferStatus.transferring 0 none false) task.host_id task.remote_path task.local_path (parse_direction task.direction).as_str) s c) { st with db := update_history_status st.db hid TransferStatus.transferring 0 none false, calls := (parse_direction task.direction, resolve_resume_offset (update_history_status st.db hid TransferStatus.transferring 0 none false) task.host_id task.remote_path task.local_path (parse_direction task.direction).as_str) :: st.calls } env.chunks) task hid e
                refine ⟨st', he, ?_, ?_⟩
                · rw [ha]
                  exact hf2.1
                · rw [hc, hf2.2.2.2.2 task.id, hf2.2.2.1]


/-- C5: a submitted task's id is in `get_active_task_ids` from the moment
`submit_task` returns; during the whole of `execute_task` the active map
is untouched (every path factors as a final `cleanup_active` applied to a
state whose active map still equals the initial one, so the id stays
present until the terminal outcome, which is emitted exactly once when a
sink is registered); and after `execute_task` returns the id is gone and
no other id was removed. -/
theorem active_ids_lifecycle :
    ∀ (st : EngineSt) (task : TransferTask) (env : Env),
    task.id ∈ get_active_task_ids (submit_task st task).2 ∧
    (∃ st', execute_task st task env = cleanup_active st' task.id ∧
      st'.active_tasks = st.active_tasks) ∧
    (execute_task st task env).active_tasks =
      st.active_tasks.filter (fun p => p.1 != task.id) ∧
    terminal_count task.id (execute_task st task env).events =
      terminal_count task.id st.events +
        (if st.app_handle = true then 1 else 0) := by
  intro st task env
  obtain ⟨st', he, ha, hc⟩ := execute_task_run_facts st task env
  refine ⟨?_, ⟨st', he, ha⟩, ?_, ?_⟩
  · simp [get_active_task_ids, submit_task]
  · rw [he, cleanup_active_spec, ha]
  · rw [he, cleanup_active_events]
    exact hc

/-- C4: when the cancellation flag is set at the moment the protocol call
returns, the engine marks the history row Cancelled with transferred
bytes 0, emits a `transfer-cancelled` event (when a sink is registered),
and never consults the protocol call's Ok/Err result: runs differing only
in `call_result` produce identical states. -/
theorem cancelled_after_call (st : EngineSt) (task : TransferTask)
    (env : Env) (hid : Nat)
    (h1 : env.db_lock_ok = true) (h2 : env.insert_history = .ok hid)
    (h3 : env.get_conn = .ok ())
    (h4 : (List.lookup task.id st.active_tasks).isNone = false)
    (h5 : env.conn_lock_ok = true) (h6 : env.cancel_at_return = true) :
    ((execute_task st task env).db.history.head? =
      some ⟨hid, .cancelled, 0, none, true⟩) ∧
    (st.app_handle = true → ∃ rest, (execute_task st task env).events =
      Event.cancelled task.id task.filename :: rest) ∧
    (∀ r₁ r₂ : Except String Nat,
      execute_task st task { env with call_result := r₁ } =
        execute_task st task { env with call_result := r₂ }) := by
  have hf2 := foldl_progress_facts task (parse_direction task.direction) (resolve_resume_offset (update_history_status st.db hid TransferStatus.transferring 0 none false) task.host_id task.remote_path task.local_path (parse_direction task.direction).as_str) env.chunks { st with db := update_history_status st.db hid TransferStatus.transferring 0 none false, calls := (parse_direction task.direction, resolve_resume_offset (update_history_status st.db hid TransferStatus.transferring 0 none false) task.host_id task.remote_path task.local_path (parse_direction task.direction).as_str) :: st.calls }
  refine ⟨?_, ?_, ?_⟩
  · unfold execute_task
    simp only [h1, Bool.not_true, Bool.false_eq_true, if_false, h2]
    simp only [h3]
    simp only [h4, Bool.false_eq_true, if_false]
    simp only [h5, Bool.not_true, Bool.false_eq_true, if_false, h6,
      if_true]
    rw [cleanup_active_db, emit_db]
    simp [update_history_status]
  · intro hah
    unfold execute_task
    simp only [h1, Bool.not_true, Bool.false_eq_true, if_false, h2]
    simp only [h3]
    simp only [h4, Bool.false_eq_true, if_false]
    simp only [h5, Bool.not_true, Bool.false_eq_true, if_false, h6,
      if_true]
    rw [cleanup_active_events]
    dsimp only [emit]
    rw [if_pos]
    · exact ⟨_, rfl⟩
    · dsimp only
      rw [hf2.2.2.1]
      exact hah
  · intro r₁ r₂
    unfold execute_task
    simp only [h1, Bool.not_true, Bool.false_eq_true, if_false, h2]
    simp only [h3]
    simp only [h4, Bool.false_eq_true, if_false]
    simp only [h5, Bool.not_true, Bool.false_eq_true, if_false, h6,
      if_true]


def st_c4 : EngineSt :=
  { db := { resume_records := [], history := [] }
    active_tasks := [("t4", false)]
    events := []
    calls := []
    app_handle := true }

def task_c4 : TransferTask :=
  { id := "t4"
    host_id := 1
    filename := "g.bin"
    local_path := "/l/g.bin"
    remote_path := "/r/g.bin"
    direction := "download"
    file_size := 50 }

def env_c4 : Env :=
  { db_lock_ok := true
    insert_history := .ok 3
    get_conn := .ok ()
    conn_lock_ok := true
    chunks := []
    call_result := .error "reset"
    cancel_at_return := true }

/-- C4 witness: the cancelled-at-return behaviour on a concrete run. -/
theorem cancelled_after_call_witness :
    ((execute_task st_c4 task_c4 env_c4).db.history.head? =
      some ⟨3, .cancelled, 0, none, true⟩) ∧
    (st_c4.app_handle = true → ∃ rest, (execute_task st_c4 task_c4 env_c4).events =
      Event.cancelled task_c4.id task_c4.filename :: rest) ∧
    (∀ r₁ r₂ : Except String Nat,
      execute_task st_c4 task_c4 { env_c4 with call_result := r₁ } =
        execute_task st_c4 task_c4 { env_c4 with call_result := r₂ }) :=
  cancelled_after_call st_c4 task_c4 env_c4 3 rfl rfl rfl (by decide) rfl rfl

/-- In every run that reaches the protocol call, the call recorded is
`(parse_direction task.direction, resume offset resolved from the store at
run start)`. -/
theorem execute_task_calls_head (st : EngineSt) (task : TransferTask)
    (env : Env) (hid : Nat)
    (h1 : env.db_lock_ok = true) (h2 : env.insert_history = .ok hid)
    (h3 : env.get_conn = .ok ())
    (h4 : (List.lookup task.id st.active_tasks).isNone = false)
    (h5 : env.conn_lock_ok = true) :
    (execute_task st task env).calls.head? =
      some (parse_direction task.direction,
        resolve_resume_offset st.db task.host_id task.remote_path task.local_path (parse_direction task.direction).as_str) := by
  have hf2 := foldl_progress_facts task (parse_direction task.direction) (resolve_resume_offset (update_history_status st.db hid TransferStatus.transferring 0 none false) task.host_id task.remote_path task.local_path (parse_direction task.direction).as_str) env.chunks { st with db := update_history_status st.db hid TransferStatus.transferring 0 none false, calls := (parse_direction task.direction, resolve_resume_offset (update_history_status st.db hid TransferStatus.transferring 0 none false) task.host_id task.remote_path task.local_path (parse_direction task.direction).as_str) :: st.calls }
  unfold execute_task
  simp only [h1, Bool.not_true, Bool.false_eq_true, if_false, h2]
  simp only [h3]
  simp only [h4, Bool.false_eq_true, if_false]
  simp only [h5, Bool.not_true, Bool.false_eq_true, if_false]
  cases hcar : env.cancel_at_return with
  | true =>
    simp only [if_true]
    rw [cleanup_active_calls, emit_calls]
    rw [hf2.2.1]
    rfl
  | false =>
    simp only [Bool.false_eq_true, if_false]
    cases hres : env.call_result with
    | ok bytes =>
      dsimp only
      rw [cleanup_active_calls, emit_calls]
      rw [hf2.2.1]
      rfl
    | error e =>
      rw [finish_task_failed_calls]
      rw [hf2.2.1]
      rfl

/-- C10: the engine interprets the direction string by exact comparison
against "upload" only — any other string, including "Upload" and
"UPLOAD", is executed as a download; neither submission nor execution
raises a validation error for an unrecognized direction (`submit_task`
always returns the task id, and every run reaching the protocol call
performs it with the parsed direction). -/
theorem direction_string_interpretation :
    (parse_direction "upload" = .upload) ∧
    (parse_direction "Upload" = .download) ∧
    (parse_direction "UPLOAD" = .download) ∧
    (∀ s : String, s ≠ "upload" → parse_direction s = .download) ∧
    (∀ (st : EngineSt) (task : TransferTask),
      (submit_task st task).1 = task.id) ∧
    (∀ (st : EngineSt) (task : TransferTask) (env : Env) (hid : Nat),
      env.db_lock_ok = true → env.insert_history = .ok hid →
      env.get_conn = .ok () →
      (List.lookup task.id st.active_tasks).isNone = false →
      env.conn_lock_ok = true →
      (execute_task st task env).calls.head? =
        some (parse_direction task.direction,
          resolve_resume_offset st.db task.host_id task.remote_path task.local_path (parse_direction task.direction).as_str)) := by
  refine ⟨by decide, by decide, by decide, ?_, fun st task => rfl, ?_⟩
  · intro s h
    unfold parse_direction
    rw [if_neg h]
  · intro st task env hid h1 h2 h3 h4 h5
    exact execute_task_calls_head st task env hid h1 h2 h3 h4 h5

def st_c10 : EngineSt :=
  { db := { resume_records := [], history := [] }
    active_tasks := [("t10", false)]
    events := []
    calls := []
    app_handle := false }

def task_c10 : TransferTask :=
  { id := "t10"
    host_id := 2
    filename := "h.txt"
    local_path := "/l/h.txt"
    remote_path := "/r/h.txt"
    direction := "UPLOAD"
    file_size := 8 }

def env_c10 : Env :=
  { db_lock_ok := true
    insert_history := .ok 4
    get_conn := .ok ()
    conn_lock_ok := true
    chunks := []
    call_result := .ok 8
    cancel_at_return := false }

/-- C10 witness: "sync" parses as download, and a task submitted with
direction "UPLOAD" is executed as a download with offset 0. -/
theorem direction_string_interpretation_witness :
    (parse_direction "sync" = .download) ∧
    ((execute_task st_c10 task_c10 env_c10).calls.head? =
      some (.download, 0)) := by
  refine ⟨?_, ?_⟩
  · exact direction_string_interpretation.2.2.2.1 "sync" (by decide)
  · have h := direction_string_interpretation.2.2.2.2.2 st_c10 task_c10
      env_c10 4 rfl rfl rfl (by decide) rfl
    rw [h]
    decide


theorem find_after_finish_failed (st : EngineSt) (task : TransferTask)
    (hid : Nat) (err : String) :
    find_resume_record (finish_task_failed st task hid err).db task.host_id task.remote_path task.local_path (parse_direction task.direction).as_str =
      some (ResumeRecord.new task.id task.host_id task.remote_path task.local_path (parse_direction task.direction) task.file_size) := by
  unfold find_resume_record
  rw [finish_task_failed_records]
  rw [List.find?_cons_of_pos]
  simp [resume_key_matches, ResumeRecord.new]

theorem execute_task_failed_run (st : EngineSt) (task : TransferTask)
    (env : Env) (hid : Nat) (e : String)
    (h1 : env.db_lock_ok = true) (h2 : env.insert_history = .ok hid)
    (h3 : env.get_conn = .ok ())
    (h4 : (List.lookup task.id st.active_tasks).isNone = false)
    (h5 : env.conn_lock_ok = true)
    (h6 : env.cancel_at_return = false)
    (h7 : env.call_result = .error e) :
    ∃ stm, execute_task st task env = finish_task_failed stm task hid e := by
  unfold execute_task
  simp only [h1, Bool.not_true, Bool.false_eq_true, if_false, h2]
  simp only [h3]
  simp only [h4, Bool.false_eq_true, if_false]
  simp only [h5, Bool.not_true, Bool.false_eq_true, if_false]
  simp only [h6, Bool.false_eq_true, if_false, h7]
  exact ⟨_, rfl⟩

/-- C1 (amended): a transfer that fails leaves, as the most recently
created matching resume record, the failure-time `ResumeRecord::new` whose
`transferred_bytes` is 0 (the periodic checkpoints carrying the real
progress remain, but are older); resubmitting a task with the same
(host id, remote path, local path, direction) therefore produces a
transfer whose protocol call receives offset 0 — the `transferred_bytes`
of the most recently created matching record — not the byte count at
which the failed transfer stopped. -/
theorem resume_record_after_failure (st : EngineSt)
    (task task2 : TransferTask) (env env2 : Env) (hid hid2 : Nat)
    (e : String)
    (h1 : env.db_lock_ok = true) (h2 : env.insert_history = .ok hid)
    (h3 : env.get_conn = .ok ())
    (h4 : (List.lookup task.id st.active_tasks).isNone = false)
    (h5 : env.conn_lock_ok = true)
    (h6 : env.cancel_at_return = false)
    (h7 : env.call_result = .error e)
    (k1 : task2.host_id = task.host_id)
    (k2 : task2.remote_path = task.remote_path)
    (k3 : task2.local_path = task.local_path)
    (k4 : task2.direction = task.direction)
    (g1 : env2.db_lock_ok = true) (g2 : env2.insert_history = .ok hid2)
    (g3 : env2.get_conn = .ok ()) (g5 : env2.conn_lock_ok = true) :
    (find_resume_record (execute_task st task env).db task.host_id task.remote_path task.local_path (parse_direction task.direction).as_str =
      some (ResumeRecord.new task.id task.host_id task.remote_path task.local_path (parse_direction task.direction) task.file_size)) ∧
    ((ResumeRecord.new task.id task.host_id task.remote_path task.local_path (parse_direction task.direction) task.file_size).transferred_bytes = 0) ∧
    ((execute_task (submit_task (execute_task st task env) task2).2 task2 env2).calls.head? =
      some (parse_direction task2.direction, 0)) := by
  obtain ⟨stm, hm⟩ :=
    execute_task_failed_run st task env hid e h1 h2 h3 h4 h5 h6 h7
  have hfind : find_resume_record (execute_task st task env).db task.host_id task.remote_path task.local_path (parse_direction task.direction).as_str =
      some (ResumeRecord.new task.id task.host_id task.remote_path task.local_path (parse_direction task.direction) task.file_size) := by
    rw [hm]
    exact find_after_finish_failed stm task hid e
  refine ⟨hfind, rfl, ?_⟩
  have h4' : (List.lookup task2.id (submit_task (execute_task st task env) task2).2.active_tasks).isNone = false := by
    simp [submit_task, List.lookup]
  have hch := execute_task_calls_head
    (submit_task (execute_task st task env) task2).2 task2 env2 hid2
    g1 g2 g3 h4' g5
  rw [hch]
  have hoff : resolve_resume_offset (submit_task (execute_task st task env) task2).2.db task2.host_id task2.remote_path task2.local_path (parse_direction task2.direction).as_str = 0 := by
    rw [k1, k2, k3, k4]
    show resolve_resume_offset (execute_task st task env).db task.host_id task.remote_path task.local_path (parse_direction task.direction).as_str = 0
    unfold resolve_resume_offset
    rw [hfind]
    rfl
  rw [hoff]

def st_r0 : EngineSt :=
  { db := { resume_records := [], history := [] }
    active_tasks := [("t1", false)]
    events := []
    calls := []
    app_handle := false }

def task_r1 : TransferTask :=
  { id := "t1"
    host_id := 1
    filename := "big.bin"
    local_path := "/l/big.bin"
    remote_path := "/r/big.bin"
    direction := "download"
    file_size := 10 }

def env_r1 : Env :=
  { db_lock_ok := true
    insert_history := .ok 1
    get_conn := .ok ()
    conn_lock_ok := true
    chunks := [{ transferred := 5, cancel := false, checkpoint_due := true }]
    call_result := .error "connection reset"
    cancel_at_return := false }

/-- The engine state after a download of `task_r1` moves 5 bytes (one
checkpointed chunk) and then fails. -/
def st_r1 : EngineSt := execute_task st_r0 task_r1 env_r1

def task_r2 : TransferTask := { task_r1 with id := "t2" }

def env_r2 : Env :=
  { env_r1 with insert_history := .ok 2, chunks := [], call_result := .ok 5 }

/-- The engine state after resubmitting the same (host, paths, direction)
as `task_r2` and running it. -/
def st_r2 : EngineSt :=
  execute_task (submit_task st_r1 task_r2).2 task_r2 env_r2

/-- C1 counterexample: the failed run moved N = 5 bytes and its 3-second
checkpoint recorded 5, but the failure path then saved a fresh record
with `transferred_bytes = 0`; the resume lookup (most recent first)
returns that 0-byte record, so the resubmitted task's protocol call
receives offset 0, not 5. -/
theorem resume_round_trip_counterexample :
    (st_r1.db.resume_records.map ResumeRecord.transferred_bytes = [0, 5]) ∧
    ((find_resume_record st_r1.db 1 "/r/big.bin" "/l/big.bin" "download").map ResumeRecord.transferred_bytes = some 0) ∧
    (st_r2.calls.head? = some (.download, 0)) ∧
    ((5 : Nat) ≠ 0) := by
  refine ⟨by decide, by decide, by decide, by decide⟩

/-- C1 witness: the amended statement on the concrete failed run. -/
theorem resume_record_after_failure_witness :
    (find_resume_record st_r1.db task_r1.host_id task_r1.remote_path task_r1.local_path (parse_direction task_r1.direction).as_str =
      some (ResumeRecord.new task_r1.id task_r1.host_id task_r1.remote_path task_r1.local_path (parse_direction task_r1.direction) task_r1.file_size)) ∧
    ((ResumeRecord.new task_r1.id task_r1.host_id task_r1.remote_path task_r1.local_path (parse_direction task_r1.direction) task_r1.file_size).transferred_bytes = 0) ∧
    (st_r2.calls.head? = some (parse_direction task_r2.direction, 0)) :=
  resume_record_after_failure st_r0 task_r1 task_r2 env_r1 env_r2 1 2
    "connection reset" rfl rfl rfl (by decide) rfl rfl rfl rfl rfl rfl rfl
    rfl rfl rfl rfl

end FtpCore
